import Mathlib

/-!
Shallow embedding of `src/jogo_combate.py`: a turn-based two-combatant battle
game.  The classes `Personagem` (base combatant), `Heroi`, `Inimigo`,
`GeradorDano` (random damage generator), and `Jogo` (battle engine with its
main loop) are translated into pure Lean definitions.

Modelling conventions:
* Python ints are `Int`.  The health setter (`vida.setter`, which validates
  with `isinstance(novo_valor_vida, int)`) may receive a non-`int` runtime
  value, so values fed to it are a `PyVal`: either an `int` or a non-integer
  numeric value (`float`).  The magnitude of a `float` never matters here,
  because the setter rejects every non-`int` before looking at the value, so
  `PyVal.float` carries no payload.
* A raised Python exception is an `Except PyError` result; the `ValueError`
  raised by the setter is `PyError.valueError` with the source's message.
  Returning `.error` means the assignment never happened, so the caller's
  combatant keeps its previous stored health.
* `random.randint(2, 4)` (in `GeradorDano.gerar_dano_base`) and
  `random.randint(5, 8)` (`gerar_dano_especial`) are modelled as oracle
  draws: each method that consumes a draw takes it as an explicit argument
  (`rolagem`, or `r1`/`r2` per turn), making the engine a deterministic
  function of the random stream and the typed choices.
* Console output (`VisualizadorBatalha` printing, `sleep` pacing) carries no
  game state; only `final_do_jogo`, which selects the winner message, is
  modelled, as a function returning which message is printed.
-/

/-- A Python runtime value that can reach the health setter or
`receber_ataque`: an `int`, or a non-integer numeric (`float`).  A float's
magnitude is irrelevant: the setter raises for any non-`int`. -/
inductive PyVal where
  | int (n : Int)
  | float
deriving DecidableEq, Repr

/-- A raised Python exception.  The health setter raises
`ValueError("O novo valor da vida deve ser inteiro.")`. -/
inductive PyError where
  | valueError (msg : String)
deriving DecidableEq, Repr

/-- State of `Personagem` (lines 22–27): `_nome`, `_vida`, `_nivel`.  The
`gerador_dano` field (a wrapper around `random.randint`) is modelled by
passing each draw as an explicit oracle argument to the methods that use
it, so it is not part of the combatant state. -/
structure Personagem where
  nome : String
  vida : Int
  nivel : Int
deriving DecidableEq, Repr

/-- `Heroi(Personagem)` (lines 67–77): adds `_habilidade`. -/
structure Heroi extends Personagem where
  habilidade : String
deriving DecidableEq, Repr

/-- `Inimigo(Personagem)` (lines 97–102): adds `_tipo`. -/
structure Inimigo extends Personagem where
  tipo : String
deriving DecidableEq, Repr

/-- The `vida` property setter (lines 37–45): an `int` argument is clamped
below at `0` and stored; any non-`int` raises `ValueError`.  Returns the
value that gets stored in `_vida`. -/
def vidaSetter (novo_valor_vida : PyVal) : Except PyError Int :=
  match novo_valor_vida with
  | .int n => if n < 0 then .ok 0 else .ok n
  | .float => .error (.valueError "O novo valor da vida deve ser inteiro.")

/-- `self.vida = v` on a `Personagem`: runs the property setter. -/
def Personagem.setVida (p : Personagem) (v : PyVal) : Except PyError Personagem :=
  (vidaSetter v).map fun n => { p with vida := n }

/-- `Personagem.__init__` (lines 23–27): `self.vida = vida` goes through the
property setter, so construction validates and clamps the initial health. -/
def Personagem.init (nome : String) (vida : PyVal) (nivel : Int) :
    Except PyError Personagem :=
  (vidaSetter vida).map fun v => { nome := nome, vida := v, nivel := nivel }

/-- `Heroi.__init__` (lines 68–77): `super().__init__(...)` then stores
`_habilidade`. -/
def Heroi.init (nome : String) (vida : PyVal) (nivel : Int)
    (habilidade : String) : Except PyError Heroi :=
  (Personagem.init nome vida nivel).map fun p =>
    { toPersonagem := p, habilidade := habilidade }

/-- `Inimigo.__init__` (lines 98–102): `super().__init__(...)` then stores
`_tipo`. -/
def Inimigo.init (nome : String) (vida : PyVal) (nivel : Int)
    (tipo : String) : Except PyError Inimigo :=
  (Personagem.init nome vida nivel).map fun p =>
    { toPersonagem := p, tipo := tipo }

/-- `self.vida - dano`, the right-hand side of `self.vida -= dano` in
`receber_ataque`.  The stored `vida` is always an `int`; `int - int` is an
`int`, while `int - float` is a `float`. -/
def pySub (vida : Int) (dano : PyVal) : PyVal :=
  match dano with
  | .int d => .int (vida - d)
  | .float => .float

/-- `receber_ataque` (lines 54–55): `self.vida -= dano`, i.e. the property
setter runs on `self.vida - dano`.  If the setter raises, the assignment
never happened, so the combatant keeps its previous stored health. -/
def Personagem.receber_ataque (p : Personagem) (dano : PyVal) :
    Except PyError Personagem :=
  p.setVida (pySub p.vida dano)

/-- `atacar` (lines 57–61): `dano = gerador_dano.gerar_dano_base() * nivel`;
the target receives it via `receber_ataque`; `dano` is returned.  `rolagem`
is the oracle value of `random.randint(2, 4)`. -/
def Personagem.atacar (self alvo : Personagem) (rolagem : Int) :
    Except PyError (Personagem × Int) :=
  let dano := rolagem * self.nivel
  (alvo.receber_ataque (.int dano)).map fun alvo2 => (alvo2, dano)

/-- `Heroi.ataque_especial` (lines 87–91): like `atacar`, but the draw
comes from `gerar_dano_especial` (`random.randint(5, 8)`). -/
def Heroi.ataque_especial (self : Heroi) (alvo : Personagem) (rolagem : Int) :
    Except PyError (Personagem × Int) :=
  let dano := rolagem * self.nivel
  (alvo.receber_ataque (.int dano)).map fun alvo2 => (alvo2, dano)

/-- Which message `VisualizadorBatalha.final_do_jogo` (lines 148–156)
prints: hero victory, enemy victory, or no message at all. -/
inductive MensagemFinal where
  | heroiVenceu
  | inimigoVenceu
  | nenhuma
deriving DecidableEq, Repr

/-- `VisualizadorBatalha.final_do_jogo` (lines 148–156): an `if`/`elif`
with no `else`, so outside both conditions nothing is printed. -/
def final_do_jogo (heroi : Heroi) (inimigo : Inimigo) : MensagemFinal :=
  if heroi.vida > 0 ∧ inimigo.vida ≤ 0 then .heroiVenceu
  else if inimigo.vida > 0 ∧ heroi.vida ≤ 0 then .inimigoVenceu
  else .nenhuma

/-- The dict returned by `Jogo.acoes_das_escolhas` (lines 229–241): either
`{"dano_do_heroi": _, "dano_do_inimigo": _}`, `{"sair_do_jogo": True}`, or
`{"escolha_invalida": True}`. -/
inductive Resultado where
  | danos (dano_do_heroi dano_do_inimigo : Int)
  | sair_do_jogo
  | escolha_invalida
deriving DecidableEq, Repr

/-- `Jogo` (lines 205–213): holds the hero and the enemy.  The
`visualizador` collaborator only prints, so it carries no state here. -/
structure Jogo where
  heroi : Heroi
  inimigo : Inimigo
deriving DecidableEq, Repr

/-- `Jogo.ataque_normal` (lines 215–220): the hero attacks the enemy;
`dano_do_inimigo` starts at `0` and the enemy counter-attacks only if its
health is still `> 0`.  `r1` is the hero's generator draw, `r2` the
enemy's (consumed only when the counter-attack happens). -/
def Jogo.ataque_normal (j : Jogo) (r1 r2 : Int) :
    Except PyError (Jogo × Resultado) :=
  match j.heroi.toPersonagem.atacar j.inimigo.toPersonagem r1 with
  | .error e => .error e
  | .ok (ini2, dano_do_heroi) =>
    let j2 : Jogo := { j with inimigo := { j.inimigo with toPersonagem := ini2 } }
    if j2.inimigo.vida > 0 then
      match j2.inimigo.toPersonagem.atacar j2.heroi.toPersonagem r2 with
      | .error e => .error e
      | .ok (her2, dano_do_inimigo) =>
        .ok ({ j2 with heroi := { j2.heroi with toPersonagem := her2 } },
          .danos dano_do_heroi dano_do_inimigo)
    else
      .ok (j2, .danos dano_do_heroi 0)

/-- `Jogo.ataque_especial_heroi` (lines 222–227): same shape as
`ataque_normal`, but the hero uses `ataque_especial`. -/
def Jogo.ataque_especial_heroi (j : Jogo) (r1 r2 : Int) :
    Except PyError (Jogo × Resultado) :=
  match j.heroi.ataque_especial j.inimigo.toPersonagem r1 with
  | .error e => .error e
  | .ok (ini2, dano_do_heroi) =>
    let j2 : Jogo := { j with inimigo := { j.inimigo with toPersonagem := ini2 } }
    if j2.inimigo.vida > 0 then
      match j2.inimigo.toPersonagem.atacar j2.heroi.toPersonagem r2 with
      | .error e => .error e
      | .ok (her2, dano_do_inimigo) =>
        .ok ({ j2 with heroi := { j2.heroi with toPersonagem := her2 } },
          .danos dano_do_heroi dano_do_inimigo)
    else
      .ok (j2, .danos dano_do_heroi 0)

/-- `Jogo.acoes_das_escolhas` (lines 229–241): dispatch on the raw choice
string: `"1"` normal attack, `"2"` special attack, `"3"` quit, anything
else is an invalid choice. -/
def Jogo.acoes_das_escolhas (j : Jogo) (escolha : String) (r1 r2 : Int) :
    Except PyError (Jogo × Resultado) :=
  if escolha = "1" then j.ataque_normal r1 r2
  else if escolha = "2" then j.ataque_especial_heroi r1 r2
  else if escolha = "3" then .ok (j, .sair_do_jogo)
  else .ok (j, .escolha_invalida)

/-- The external inputs of one loop iteration: the string typed at the
prompt and the two potential `randint` draws of that turn (hero's draw
first, then the enemy's). -/
structure Turno where
  escolha : String
  r1 : Int
  r2 : Int
deriving DecidableEq, Repr

/-- Result of `Jogo.iniciar_jogo`.  `finalizado` carries the final game
state and the message `final_do_jogo` prints after the loop.
`semEntrada` means the input list ran out while the loop was still
active (in Python the blocking `input()` would still be waiting). -/
inductive ResultadoJogo where
  | finalizado (j : Jogo) (msg : MensagemFinal)
  | semEntrada (j : Jogo)
deriving DecidableEq, Repr

/-- `Jogo.iniciar_jogo` (lines 243–258): `while heroi.vida > 0 and
inimigo.vida > 0`, resolve the typed choice; `sair_do_jogo` breaks out,
`escolha_invalida` continues, and a damage outcome falls through to the
next health check.  After the loop (by `break` or by the condition
failing) `final_do_jogo` runs. -/
def Jogo.iniciar_jogo (j : Jogo) (entradas : List Turno) :
    Except PyError ResultadoJogo :=
  if j.heroi.vida > 0 ∧ j.inimigo.vida > 0 then
    match entradas with
    | [] => .ok (.semEntrada j)
    | t :: resto =>
      match j.acoes_das_escolhas t.escolha t.r1 t.r2 with
      | .error e => .error e
      | .ok (j2, .sair_do_jogo) =>
        .ok (.finalizado j2 (final_do_jogo j2.heroi j2.inimigo))
      | .ok (j2, _) => j2.iniciar_jogo resto
  else .ok (.finalizado j (final_do_jogo j.heroi j.inimigo))

/-! ## Helper lemmas -/

/-- `atacar` with draw `rolagem` always succeeds: the damage is
`rolagem * nivel` (an `int`, so the setter never raises) and the target's
health is clamped at `0`. -/
theorem atacar_ok (self alvo : Personagem) (rolagem : Int) :
    self.atacar alvo rolagem =
      .ok ({ alvo with vida := max 0 (alvo.vida - rolagem * self.nivel) },
        rolagem * self.nivel) := by
  unfold Personagem.atacar Personagem.receber_ataque Personagem.setVida pySub vidaSetter
  by_cases h : alvo.vida - rolagem * self.nivel < 0 <;>
    simp [h, Except.map] <;> omega

/-- `ataque_especial` with draw `rolagem` always succeeds, with damage
`rolagem * nivel` and the target's health clamped at `0`. -/
theorem ataque_especial_ok (self : Heroi) (alvo : Personagem) (rolagem : Int) :
    self.ataque_especial alvo rolagem =
      .ok ({ alvo with vida := max 0 (alvo.vida - rolagem * self.nivel) },
        rolagem * self.nivel) := by
  unfold Heroi.ataque_especial Personagem.receber_ataque Personagem.setVida pySub vidaSetter
  by_cases h : alvo.vida - rolagem * self.nivel < 0 <;>
    simp [h, Except.map] <;> omega

/-! ## Claim theorems -/

/-- C1: on a combatant with non-negative health `p.vida` and a non-negative
integer damage `d`, `receber_ataque` succeeds (no exception, no return
value beyond the mutation) and the new stored health is
`max 0 (p.vida - d)`. -/
theorem receber_ataque_clamps (p : Personagem) (d : Int)
    (hvida : 0 ≤ p.vida) (hdano : 0 ≤ d) :
    p.receber_ataque (.int d) = .ok { p with vida := max 0 (p.vida - d) } := by
  unfold Personagem.receber_ataque Personagem.setVida pySub vidaSetter
  by_cases h : p.vida - d < 0 <;> simp [h, Except.map] <;> omega

/-- Witness for C1 at health 50 and damage 65: the health clamps to 0. -/
theorem receber_ataque_clamps_exemplo :
    Personagem.receber_ataque ⟨"Asta", 50, 5⟩ (.int 65) = .ok ⟨"Asta", 0, 5⟩ := by
  simpa using receber_ataque_clamps ⟨"Asta", 50, 5⟩ 65 (by decide) (by decide)

/-- C2: the health setter stores `0` for a negative integer, stores a
non-negative integer as given, and raises `ValueError` (the InvalidValue
error) for a non-integer value, never coercing it. -/
theorem vida_setter_spec (p : Personagem) :
    (∀ n : Int, n < 0 → p.setVida (.int n) = .ok { p with vida := 0 }) ∧
    (∀ n : Int, 0 ≤ n → p.setVida (.int n) = .ok { p with vida := n }) ∧
    p.setVida .float =
      .error (.valueError "O novo valor da vida deve ser inteiro.") := by
  refine ⟨fun n hn => ?_, fun n hn => ?_, rfl⟩
  · simp [Personagem.setVida, vidaSetter, hn, Except.map]
  · simp [Personagem.setVida, vidaSetter, not_lt.mpr hn, Except.map]

/-- Witness for C2: assigning -7 clamps to 0 and assigning 9 stores 9. -/
theorem vida_setter_spec_exemplo :
    Personagem.setVida ⟨"Asta", 50, 5⟩ (.int (-7)) = .ok ⟨"Asta", 0, 5⟩ ∧
    Personagem.setVida ⟨"Asta", 50, 5⟩ (.int 9) = .ok ⟨"Asta", 9, 5⟩ :=
  ⟨(vida_setter_spec ⟨"Asta", 50, 5⟩).1 (-7) (by decide),
   (vida_setter_spec ⟨"Asta", 50, 5⟩).2.1 9 (by decide)⟩

/-- C3: `atacar` returns exactly the generator draw times the attacker's
level, `ataque_especial` returns exactly the special draw times the hero's
level, both always succeed, and whenever the target's pre-attack health is
at least the computed damage, the returned value equals the target's
health decrease. -/
theorem ataques_dano_retornado (self alvo : Personagem) (h : Heroi) (r : Int) :
    (∀ alvo2 dano, self.atacar alvo r = .ok (alvo2, dano) →
      dano = r * self.nivel ∧
        (dano ≤ alvo.vida → alvo.vida - alvo2.vida = dano)) ∧
    (∃ x, self.atacar alvo r = .ok x) ∧
    (∀ alvo2 dano, h.ataque_especial alvo r = .ok (alvo2, dano) →
      dano = r * h.nivel ∧
        (dano ≤ alvo.vida → alvo.vida - alvo2.vida = dano)) ∧
    (∃ x, h.ataque_especial alvo r = .ok x) := by
  rw [atacar_ok, ataque_especial_ok]
  refine ⟨fun alvo2 dano heq => ?_, ⟨_, rfl⟩, fun alvo2 dano heq => ?_, ⟨_, rfl⟩⟩
  · simp at heq
    obtain ⟨ha, hd⟩ := heq
    subst hd
    constructor
    · rfl
    · intro hle
      rw [← ha]
      simp
      omega
  · simp at heq
    obtain ⟨ha, hd⟩ := heq
    subst hd
    constructor
    · rfl
    · intro hle
      rw [← ha]
      simp
      omega

/-- Witness for C3 with draw 3, level 5, target health 80: the attack
returns 15 = 3 × 5, and the target's health drops from 80 to 65. -/
theorem ataques_dano_retornado_exemplo :
    (15 : Int) = 3 * 5 ∧ ((15 : Int) ≤ 80 → (80 : Int) - 65 = 15) :=
  (ataques_dano_retornado ⟨"Asta", 50, 5⟩ ⟨"Lucifer", 80, 5⟩
    ⟨⟨"Asta", 50, 5⟩, "Super Forca"⟩ 3).1 ⟨"Lucifer", 65, 5⟩ 15 (by rfl)

/-- C4: in both `ataque_normal` and `ataque_especial_heroi`, when the
enemy's health after the hero's attack is ≤ 0 (the enemy's health is not
touched again in the turn, so it equals the returned state's enemy
health), the returned `dano_do_inimigo` is exactly 0 and the hero is
unchanged; otherwise the enemy counter-attacks and `dano_do_inimigo` is
the enemy's `atacar` return value, its draw times its level.  Both
resolutions always produce a damage outcome. -/
theorem contra_ataque_condicional (j : Jogo) (r1 r2 : Int) :
    (∀ j2 dh di, j.ataque_normal r1 r2 = .ok (j2, .danos dh di) →
      (j2.inimigo.vida ≤ 0 → di = 0 ∧ j2.heroi = j.heroi) ∧
      (j2.inimigo.vida > 0 → di = r2 * j.inimigo.nivel)) ∧
    (∃ j2 dh di, j.ataque_normal r1 r2 = .ok (j2, .danos dh di)) ∧
    (∀ j2 dh di, j.ataque_especial_heroi r1 r2 = .ok (j2, .danos dh di) →
      (j2.inimigo.vida ≤ 0 → di = 0 ∧ j2.heroi = j.heroi) ∧
      (j2.inimigo.vida > 0 → di = r2 * j.inimigo.nivel)) ∧
    (∃ j2 dh di, j.ataque_especial_heroi r1 r2 = .ok (j2, .danos dh di)) := by
  unfold Jogo.ataque_normal Jogo.ataque_especial_heroi
  simp only [atacar_ok, ataque_especial_ok]
  constructor
  · by_cases h : (0 : Int) ⊔ (j.inimigo.vida - r1 * j.heroi.nivel) > 0
    · intro j2 dh di heq
      simp [h] at heq
      obtain ⟨hj2, hdh, hdi⟩ := heq
      subst hj2
      refine ⟨fun hle => ?_, fun _ => by omega⟩
      simp at hle
      omega
    · intro j2 dh di heq
      simp [h] at heq
      obtain ⟨hj2, hdh, hdi⟩ := heq
      subst hj2
      refine ⟨fun _ => ⟨by omega, rfl⟩, fun hgt => ?_⟩
      simp at hgt
      omega
  · refine ⟨?_, ?_, ?_⟩
    · by_cases h : (0 : Int) ⊔ (j.inimigo.vida - r1 * j.heroi.nivel) > 0 <;>
        simp [h]
    · by_cases h : (0 : Int) ⊔ (j.inimigo.vida - r1 * j.heroi.nivel) > 0
      · intro j2 dh di heq
        simp [h] at heq
        obtain ⟨hj2, hdh, hdi⟩ := heq
        subst hj2
        refine ⟨fun hle => ?_, fun _ => by omega⟩
        simp at hle
        omega
      · intro j2 dh di heq
        simp [h] at heq
        obtain ⟨hj2, hdh, hdi⟩ := heq
        subst hj2
        refine ⟨fun _ => ⟨by omega, rfl⟩, fun hgt => ?_⟩
        simp at hgt
        omega
    · by_cases h : (0 : Int) ⊔ (j.inimigo.vida - r1 * j.heroi.nivel) > 0 <;>
        simp [h]

/-- Witness for C4: a hero of level 5 with draw 3 deals 15 damage to an
enemy at 10 health, the enemy drops to 0 and deals 0 back, and the hero
is untouched. -/
theorem contra_ataque_condicional_exemplo :
    (0 : Int) = 0 ∧
      (⟨⟨"Asta", 50, 5⟩, "Super Forca"⟩ : Heroi) = ⟨⟨"Asta", 50, 5⟩, "Super Forca"⟩ :=
  ((contra_ataque_condicional
      ⟨⟨⟨"Asta", 50, 5⟩, "Super Forca"⟩, ⟨⟨"Lucifer", 10, 5⟩, "Demonio"⟩⟩ 3 4).1
    ⟨⟨⟨"Asta", 50, 5⟩, "Super Forca"⟩, ⟨⟨"Lucifer", 0, 5⟩, "Demonio"⟩⟩ 15 0
    (by rfl)).1 (by decide)

/-- When `iniciar_jogo` finishes (by `break` on quitting or because a
combatant died), the reported message is exactly `final_do_jogo` applied
to the final state. -/
theorem iniciar_jogo_mensagem (entradas : List Turno) :
    ∀ (j j2 : Jogo) (msg : MensagemFinal),
      j.iniciar_jogo entradas = .ok (.finalizado j2 msg) →
      msg = final_do_jogo j2.heroi j2.inimigo := by
  induction entradas with
  | nil =>
    intro j j2 msg h
    unfold Jogo.iniciar_jogo at h
    by_cases hg : j.heroi.vida > 0 ∧ j.inimigo.vida > 0
    · simp [hg] at h
    · simp [hg] at h
      obtain ⟨h1, h2⟩ := h
      subst h1
      exact h2.symm
  | cons t resto ih =>
    intro j j2 msg h
    unfold Jogo.iniciar_jogo at h
    by_cases hg : j.heroi.vida > 0 ∧ j.inimigo.vida > 0
    · rw [if_pos hg] at h
      split at h
      · simp at h
      · rename_i t2 resto2 heq
        injection heq with ht hr
        subst ht
        subst hr
        rcases hac : j.acoes_das_escolhas t.escolha t.r1 t.r2 with e | ⟨j3, res⟩ <;>
          rw [hac] at h
        · simp at h
        · rcases res with ⟨dh, di⟩ | _ | _
          · exact ih j3 j2 msg (by simpa using h)
          · simp at h
            obtain ⟨h1, h2⟩ := h
            subst h1
            exact h2.symm
          · exact ih j3 j2 msg (by simpa using h)
    · rw [if_neg hg] at h
      simp at h
      obtain ⟨h1, h2⟩ := h
      subst h1
      exact h2.symm

/-- C5: the final report declares the hero winner iff the hero's health is
positive and the enemy's is ≤ 0, declares the enemy winner iff the
enemy's health is positive and the hero's is ≤ 0, and prints no winner
message in every other case (both ≤ 0 or both positive); and whenever the
main loop ends, the message it reports is `final_do_jogo` of the final
state. -/
theorem final_do_jogo_spec (heroi : Heroi) (inimigo : Inimigo) :
    (final_do_jogo heroi inimigo = .heroiVenceu ↔
      heroi.vida > 0 ∧ inimigo.vida ≤ 0) ∧
    (final_do_jogo heroi inimigo = .inimigoVenceu ↔
      inimigo.vida > 0 ∧ heroi.vida ≤ 0) ∧
    ((heroi.vida ≤ 0 ∧ inimigo.vida ≤ 0) ∨ (heroi.vida > 0 ∧ inimigo.vida > 0) →
      final_do_jogo heroi inimigo = .nenhuma) ∧
    (∀ (j : Jogo) (entradas : List Turno) (j2 : Jogo) (msg : MensagemFinal),
      j.iniciar_jogo entradas = .ok (.finalizado j2 msg) →
      msg = final_do_jogo j2.heroi j2.inimigo) := by
  refine ⟨?_, ?_, ?_, fun j entradas => iniciar_jogo_mensagem entradas j⟩ <;>
    unfold final_do_jogo <;> split_ifs with h1 h2 <;> simp_all

/-- Witness for C5: with the hero at 50 health and the enemy at 0 the
report is a hero victory; with both at positive health (as after a quit)
no winner message is produced. -/
theorem final_do_jogo_spec_exemplo :
    final_do_jogo ⟨⟨"Asta", 50, 5⟩, "Super Forca"⟩ ⟨⟨"Lucifer", 0, 5⟩, "Demonio"⟩ =
      .heroiVenceu ∧
    final_do_jogo ⟨⟨"Asta", 50, 5⟩, "Super Forca"⟩ ⟨⟨"Lucifer", 80, 5⟩, "Demonio"⟩ =
      .nenhuma :=
  ⟨(final_do_jogo_spec ⟨⟨"Asta", 50, 5⟩, "Super Forca"⟩
      ⟨⟨"Lucifer", 0, 5⟩, "Demonio"⟩).1.mpr ⟨by decide, by decide⟩,
   (final_do_jogo_spec ⟨⟨"Asta", 50, 5⟩, "Super Forca"⟩
      ⟨⟨"Lucifer", 80, 5⟩, "Demonio"⟩).2.2.1 (Or.inr ⟨by decide, by decide⟩)⟩

/-- C6: resolving the quit choice `"3"` returns `sair_do_jogo` with both
combatants' full state unchanged, and from any active state (both alive)
the main loop stops right after that outcome — for every continuation of
the input stream — reporting on the unchanged state, where (both
combatants being alive) no winner message is produced. -/
theorem sair_do_jogo_spec (j : Jogo) (r1 r2 : Int) (resto : List Turno)
    (hh : j.heroi.vida > 0) (hi : j.inimigo.vida > 0) :
    j.acoes_das_escolhas "3" r1 r2 = .ok (j, .sair_do_jogo) ∧
    j.iniciar_jogo (⟨"3", r1, r2⟩ :: resto) =
      .ok (.finalizado j (final_do_jogo j.heroi j.inimigo)) ∧
    final_do_jogo j.heroi j.inimigo = .nenhuma := by
  refine ⟨rfl, ?_, ?_⟩
  · unfold Jogo.iniciar_jogo
    simp [hh, hi, Jogo.acoes_das_escolhas]
  · unfold final_do_jogo
    split_ifs with h1 h2
    · omega
    · omega
    · rfl

/-- Witness for C6: quitting on the first turn with the hero at 50 and
the enemy at 80 leaves both untouched and ends the game with no winner
message. -/
theorem sair_do_jogo_spec_exemplo :
    Jogo.acoes_das_escolhas
        ⟨⟨⟨"Asta", 50, 5⟩, "Super Forca"⟩, ⟨⟨"Lucifer", 80, 5⟩, "Demonio"⟩⟩ "3" 3 4 =
      .ok (⟨⟨⟨"Asta", 50, 5⟩, "Super Forca"⟩, ⟨⟨"Lucifer", 80, 5⟩, "Demonio"⟩⟩,
        .sair_do_jogo) ∧
    Jogo.iniciar_jogo
        ⟨⟨⟨"Asta", 50, 5⟩, "Super Forca"⟩, ⟨⟨"Lucifer", 80, 5⟩, "Demonio"⟩⟩
        [⟨"3", 3, 4⟩] =
      .ok (.finalizado
        ⟨⟨⟨"Asta", 50, 5⟩, "Super Forca"⟩, ⟨⟨"Lucifer", 80, 5⟩, "Demonio"⟩⟩
        .nenhuma) := by
  have h := sair_do_jogo_spec
    ⟨⟨⟨"Asta", 50, 5⟩, "Super Forca"⟩, ⟨⟨"Lucifer", 80, 5⟩, "Demonio"⟩⟩ 3 4 []
    (by decide) (by decide)
  exact ⟨h.1, h.2.2 ▸ h.2.1⟩

/-- C7: any choice outside `"1"`, `"2"`, `"3"` resolves to
`escolha_invalida` with both combatants' state unchanged, and the active
loop just moves on to the next prompt with the same state. -/
theorem escolha_invalida_spec (j : Jogo) (escolha : String) (r1 r2 : Int)
    (resto : List Turno) (h1 : escolha ≠ "1") (h2 : escolha ≠ "2")
    (h3 : escolha ≠ "3") (hh : j.heroi.vida > 0) (hi : j.inimigo.vida > 0) :
    j.acoes_das_escolhas escolha r1 r2 = .ok (j, .escolha_invalida) ∧
    j.iniciar_jogo (⟨escolha, r1, r2⟩ :: resto) = j.iniciar_jogo resto := by
  constructor
  · unfold Jogo.acoes_das_escolhas
    simp [h1, h2, h3]
  · conv_lhs => unfold Jogo.iniciar_jogo
    simp [hh, hi, Jogo.acoes_das_escolhas, h1, h2, h3]

/-- Witness for C7: the choice `"9"` is rejected and the loop goes on with
both combatants exactly as they were. -/
theorem escolha_invalida_spec_exemplo :
    Jogo.acoes_das_escolhas
        ⟨⟨⟨"Asta", 50, 5⟩, "Super Forca"⟩, ⟨⟨"Lucifer", 80, 5⟩, "Demonio"⟩⟩ "9" 3 4 =
      .ok (⟨⟨⟨"Asta", 50, 5⟩, "Super Forca"⟩, ⟨⟨"Lucifer", 80, 5⟩, "Demonio"⟩⟩,
        .escolha_invalida) ∧
    Jogo.iniciar_jogo
        ⟨⟨⟨"Asta", 50, 5⟩, "Super Forca"⟩, ⟨⟨"Lucifer", 80, 5⟩, "Demonio"⟩⟩
        [⟨"9", 3, 4⟩] =
      Jogo.iniciar_jogo
        ⟨⟨⟨"Asta", 50, 5⟩, "Super Forca"⟩, ⟨⟨"Lucifer", 80, 5⟩, "Demonio"⟩⟩ [] :=
  escolha_invalida_spec
    ⟨⟨⟨"Asta", 50, 5⟩, "Super Forca"⟩, ⟨⟨"Lucifer", 80, 5⟩, "Demonio"⟩⟩ "9" 3 4 []
    (by decide) (by decide) (by decide) (by decide) (by decide)

/-- C8: `receber_ataque` does not validate that the damage is
non-negative: a negative integer damage on a combatant with non-negative
health raises nothing and strictly increases the stored health to
`vida - d`. -/
theorem receber_ataque_negativo (p : Personagem) (d : Int)
    (hvida : 0 ≤ p.vida) (hdano : d < 0) :
    p.receber_ataque (.int d) = .ok { p with vida := p.vida - d } ∧
    p.vida < p.vida - d := by
  constructor
  · unfold Personagem.receber_ataque Personagem.setVida pySub vidaSetter
    have h : ¬ p.vida - d < 0 := by omega
    simp [h, Except.map]
  · omega

/-- Witness for C8: damage -5 on health 50 heals the combatant to 55. -/
theorem receber_ataque_negativo_exemplo :
    Personagem.receber_ataque ⟨"Asta", 50, 5⟩ (.int (-5)) = .ok ⟨"Asta", 55, 5⟩ ∧
    (50 : Int) < 55 := by
  simpa using receber_ataque_negativo ⟨"Asta", 50, 5⟩ (-5) (by decide) (by decide)

/-- C9: every constructor (`Personagem`, `Heroi`, `Inimigo`) routes the
initial health through the validating setter: a negative integer is
stored as 0, a non-negative integer as given, and a non-integer makes
construction raise `ValueError`. -/
theorem init_valida_vida (nome habilidade tipo : String) (nivel n : Int) :
    (n < 0 →
      Personagem.init nome (.int n) nivel = .ok ⟨nome, 0, nivel⟩ ∧
      Heroi.init nome (.int n) nivel habilidade = .ok ⟨⟨nome, 0, nivel⟩, habilidade⟩ ∧
      Inimigo.init nome (.int n) nivel tipo = .ok ⟨⟨nome, 0, nivel⟩, tipo⟩) ∧
    (0 ≤ n →
      Personagem.init nome (.int n) nivel = .ok ⟨nome, n, nivel⟩ ∧
      Heroi.init nome (.int n) nivel habilidade = .ok ⟨⟨nome, n, nivel⟩, habilidade⟩ ∧
      Inimigo.init nome (.int n) nivel tipo = .ok ⟨⟨nome, n, nivel⟩, tipo⟩) ∧
    (Personagem.init nome .float nivel =
        .error (.valueError "O novo valor da vida deve ser inteiro.") ∧
      Heroi.init nome .float nivel habilidade =
        .error (.valueError "O novo valor da vida deve ser inteiro.") ∧
      Inimigo.init nome .float nivel tipo =
        .error (.valueError "O novo valor da vida deve ser inteiro.")) := by
  refine ⟨fun hn => ?_, fun hn => ?_, rfl, rfl, rfl⟩
  · simp [Personagem.init, Heroi.init, Inimigo.init, vidaSetter, hn, Except.map]
  · simp [Personagem.init, Heroi.init, Inimigo.init, vidaSetter,
      not_lt.mpr hn, Except.map]

/-- Witness for C9: constructing a hero with initial health -3 stores 0,
and with initial health 50 stores 50. -/
theorem init_valida_vida_exemplo :
    Heroi.init "Asta" (.int (-3)) 5 "Super Forca" =
      .ok ⟨⟨"Asta", 0, 5⟩, "Super Forca"⟩ ∧
    Heroi.init "Asta" (.int 50) 5 "Super Forca" =
      .ok ⟨⟨"Asta", 50, 5⟩, "Super Forca"⟩ :=
  ⟨((init_valida_vida "Asta" "Super Forca" "Demonio" 5 (-3)).1 (by decide)).2.1,
   ((init_valida_vida "Asta" "Super Forca" "Demonio" 5 50).2.1 (by decide)).2.1⟩

/-- C10: a non-integer damage makes `receber_ataque` raise `ValueError`:
`self.vida - dano` is then a non-integer, which the setter rejects before
assigning, so the returned result is the error and no updated combatant —
the stored health stays what it was. -/
theorem receber_ataque_nao_inteiro (p : Personagem) :
    p.receber_ataque .float =
      .error (.valueError "O novo valor da vida deve ser inteiro.") := rfl
